import Mathlib

/-!
Shallow embedding of the AgriPredict backend (app.py).

The embedded pieces are: the weather cache and the /api/weather endpoint,
the alert analyzer, the crop suitability scorer, the yield-prediction
orchestration, the /api/alerts endpoint, and the missing-parameter checks
of the /api/location and /api/crop-suitability endpoints.

Modelling conventions: Python floats become rationals, instants become
integer unix seconds (a 10-minute freshness window is 600 seconds), JSON
dictionaries with possibly missing keys become structures of Option
fields, a Python exception caught by a broad handler becomes an Option
match, and the translation table (languages.py, an external collaborator
of this core) becomes an opaque total lookup parameter Tr.
-/

namespace AgriPredict

/-- JSON scalar as delivered by request.json: absent or null, a number,
or a string. -/
inductive PyVal where
  | pynone : PyVal
  | num : ℚ → PyVal
  | str : String → PyVal
deriving DecidableEq

/-- Python truthiness of a PyVal: None, 0 and the empty string are falsy. -/
def truthy : PyVal → Bool
  | PyVal.pynone => false
  | PyVal.num q => decide (q ≠ 0)
  | PyVal.str s => decide (s ≠ "")

/-- Python truthiness of an optional query-parameter string
(request.args.get returns None when the parameter is absent). -/
def falsyOptStr : Option String → Bool
  | Option.none => true
  | Option.some s => decide (s = "")

/-- Contents of the "main" dictionary of the provider payload: temperature and
humidity, either possibly missing. -/
structure MainData where
  temp : Option ℚ
  humidity : Option ℚ
deriving DecidableEq

/-- Contents of the current-conditions payload: the "main" dictionary may
be missing. -/
structure CurrentData where
  main : Option MainData
deriving DecidableEq

/-- One forecast time-slot: unix timestamp and whether the slot carries a
"rain" key. -/
structure ForecastItem where
  dt : ℤ
  hasRain : Bool
deriving DecidableEq

/-- A weather snapshot as built by get_weather_data and stored in the
cache: current payload (the "current" key may be missing when the
analyzer is called on arbitrary dictionaries), the "list" of forecast
slots (absent when the forecast payload has no "list" key), and the
capture instant. -/
structure WeatherData where
  current : Option CurrentData
  forecastList : Option (List ForecastItem)
  timestamp : ℤ
deriving DecidableEq

/-- Alert type enumeration of the analyzer. -/
inductive AlertType where
  | heat_stress : AlertType
  | rain : AlertType
  | drought : AlertType
deriving DecidableEq

/-- Alert severity enumeration of the analyzer. -/
inductive Severity where
  | low : Severity
  | medium : Severity
  | high : Severity
deriving DecidableEq

/-- AlertRecord as appended by analyze_weather_alerts. -/
structure Alert where
  type : AlertType
  severity : Severity
  message : String
  icon : String
  color : String
deriving DecidableEq

/-- Python int() applied to a rational: truncation toward zero. -/
def pyInt (q : ℚ) : ℤ := if 0 ≤ q then ⌊q⌋ else ⌈q⌉

/-- Hours until a forecast slot:
(datetime.fromtimestamp(item.dt) - now).total_seconds() / 3600. -/
def hoursUntil (now : ℤ) (item : ForecastItem) : ℚ :=
  ((item.dt - now : ℤ) : ℚ) / 3600

/-- The rain-scan loop body of analyze_weather_alerts: walk the slots in
order; a slot with rain data whose hours-until is at most 2 yields the
truncated hour count and stops; any other slot is skipped (in the source,
the break statement sits inside the inner if, so a rain slot more than
2 hours out does NOT stop the scan). -/
def rain_scan (now : ℤ) : List ForecastItem → Option ℤ
  | [] => Option.none
  | item :: rest =>
    if item.hasRain then
      if hoursUntil now item ≤ 2 then Option.some (pyInt (hoursUntil now item))
      else rain_scan now rest
    else rain_scan now rest

/-- Temperature as read by the analyzer:
current.get("main", {}).get("temp", 0). -/
def getTemp (current : CurrentData) : ℚ :=
  (current.main.bind MainData.temp).getD 0

/-- Humidity as read by the analyzer:
current.get("main", {}).get("humidity", 100). -/
def getHumidity (current : CurrentData) : ℚ :=
  (current.main.bind MainData.humidity).getD 100

/-- The heat-stress alert record. -/
def heatAlert (Tr : String → String → String) (language : String) : Alert :=
  ⟨AlertType.heat_stress, Severity.high, Tr language "heat_stress", "fas fa-sun", "red"⟩

/-- The rain alert record; the message template has its hour placeholder
filled with the truncated hour count. -/
def rainAlert (Tr : String → String → String) (language : String) (h : ℤ) : Alert :=
  ⟨AlertType.rain, Severity.medium,
    (Tr language "rain_expected").replace "{hours}" (toString h),
    "fas fa-cloud-rain", "blue"⟩

/-- The drought alert record. -/
def droughtAlert (Tr : String → String → String) (language : String) : Alert :=
  ⟨AlertType.drought, Severity.high, Tr language "drought_warning", "fas fa-sun", "orange"⟩

/-- analyze_weather_alerts: empty when the payload is falsy or has no
"current" key; otherwise the heat, rain and drought rules evaluated in
order, each appending independently (rain appends at most once). -/
def analyze_weather_alerts (Tr : String → String → String) (now : ℤ)
    (weather_data : Option WeatherData) (language : String) : List Alert :=
  match weather_data with
  | Option.none => []
  | Option.some w =>
    match w.current with
    | Option.none => []
    | Option.some current =>
      let temp := getTemp current
      let heat := if temp > 35 then [heatAlert Tr language] else []
      let rain :=
        match w.forecastList with
        | Option.none => []
        | Option.some items =>
          match rain_scan now (items.take 8) with
          | Option.none => []
          | Option.some h => [rainAlert Tr language h]
      let humidity := getHumidity current
      let drought :=
        if humidity < 30 ∧ temp > 30 then [droughtAlert Tr language] else []
      heat ++ rain ++ drought

/-- Temperature sub-score of the suitability calculation:
max(0, 100 - abs(temp - 25) * 2). -/
def temp_score (temp : ℚ) : ℚ := max 0 (100 - |temp - 25| * 2)

/-- Humidity sub-score of the suitability calculation:
max(0, 100 - abs(humidity - 60) * 1.5). -/
def humidity_score (humidity : ℚ) : ℚ := max 0 (100 - |humidity - 60| * (3 / 2))

/-- Soil-pH sub-score of the suitability calculation:
max(0, 100 - abs(ph - 6.5) * 20). -/
def ph_score (ph : ℚ) : ℚ := max 0 (100 - |ph - 13 / 2| * 20)

/-- calculate_crop_suitability: 50 when the weather payload is falsy or
the model-loaded flag is down; 50 again when reading
weather_data.current.main.temp / .humidity raises (broad except); else
the clamped mean of the three sub-scores, with soil ph defaulting to 6.5
(soil_data.get("ph", 6.5) never raises). The crop argument is unused, as
in the source. -/
def calculate_crop_suitability (crop : String) (model_loaded : Bool)
    (weather_data : Option WeatherData) (soil_ph : Option ℚ) : ℚ :=
  match weather_data with
  | Option.none => 50
  | Option.some w =>
    if model_loaded = false then 50
    else
      match w.current.bind CurrentData.main with
      | Option.none => 50
      | Option.some m =>
        match m.temp, m.humidity with
        | Option.some temp, Option.some humidity =>
          min 100 (max 0
            ((temp_score temp + humidity_score humidity
              + ph_score (soil_ph.getD (13 / 2))) / 3))
        | _, _ => 50

/-- YieldModelArtifact: the opaque regressor (a function on feature
vectors), the two categorical encoders, and the known category lists. -/
structure Artifact where
  model : List ℚ → ℚ
  region_encoder : String → ℤ
  crop_encoder : String → ℤ
  regions : List String
  crops : List String

/-- Prediction inputs after JSON extraction (the endpoint substitutes its
documented defaults before this point). -/
structure PredictInput where
  region : String
  crop : String
  year : ℚ
  temperature : ℚ
  rainfall : ℚ
  soil_ph : ℚ
  nitrogen : ℚ
  phosphorus : ℚ
  potassium : ℚ
  organic_matter : ℚ
  irrigation_quality : ℤ

/-- Region encoding of predict_yield: the encoder when the region is
known, else index 0. -/
def encode_region (a : Artifact) (region : String) : ℤ :=
  if region ∈ a.regions then a.region_encoder region else 0

/-- Crop encoding of predict_yield: the encoder when the crop is known,
else index 0. -/
def encode_crop (a : Artifact) (crop : String) : ℤ :=
  if crop ∈ a.crops then a.crop_encoder crop else 0

/-- The feature row X_input built by predict_yield, in source order. -/
def features (a : Artifact) (i : PredictInput) : List ℚ :=
  [(encode_region a i.region : ℚ), (encode_crop a i.crop : ℚ), i.year,
    i.temperature, i.rainfall, i.soil_ph, i.nitrogen, i.phosphorus,
    i.potassium, i.organic_matter, (i.irrigation_quality : ℚ)]

/-- Weather auxiliary score of predict_yield:
min(100, max(0, 100 - abs(temperature - 25) * 2 - abs(rainfall - 1000) * 0.05)). -/
def weather_score (temperature rainfall : ℚ) : ℚ :=
  min 100 (max 0 (100 - |temperature - 25| * 2 - |rainfall - 1000| * (1 / 20)))

/-- Soil auxiliary score of predict_yield:
min(100, max(0, 100 - abs(soil_ph - 6.5) * 10)). -/
def soil_score (soil_ph : ℚ) : ℚ :=
  min 100 (max 0 (100 - |soil_ph - 13 / 2| * 10))

/-- Irrigation auxiliary score of predict_yield: irrigation_quality * 20. -/
def irrigation_score (irrigation_quality : ℤ) : ℚ :=
  (irrigation_quality : ℚ) * 20

/-- Confidence label of predict_yield. -/
def confidence (ws ss : ℚ) : String :=
  if ws > 70 ∧ ss > 70 then "High" else if ws > 50 then "Medium" else "Low"

/-- Weather impact label of predict_yield. -/
def weather_impact (ws : ℚ) : String :=
  if ws > 70 then "Good" else if ws > 50 then "Moderate" else "Poor"

/-- Soil impact label of predict_yield. -/
def soil_impact (ss : ℚ) : String :=
  if ss > 70 then "Good" else if ss > 50 then "Moderate" else "Poor"

/-- Irrigation impact label of predict_yield. -/
def irrigation_impact (q : ℤ) : String :=
  if q ≥ 4 then "Excellent" else if q ≥ 3 then "Good" else "Adequate"

/-- Impact-factor triple of a PredictionResult. -/
structure Factors where
  weatherImpact : String
  soilImpact : String
  irrigationImpact : String
deriving DecidableEq

/-- PredictionResult as assembled by predict_yield. -/
structure PredictionResult where
  predicted_yield : ℚ
  unit : String
  resultConfidence : String
  factors : Factors
deriving DecidableEq

/-- Rounding to two decimals applied to the raw regression output.
Python round uses round-half-to-even on floats; no claim depends on the
rounded value and ties are not exercised here. -/
def round2 (q : ℚ) : ℚ := ((⌊q * 100 + 1 / 2⌋ : ℤ) : ℚ) / 100

/-- predict_yield with the artifact loaded: encode, build the feature
row, run the regressor, and derive confidence and impact labels from the
auxiliary scores. -/
def predict_yield (a : Artifact) (i : PredictInput) : PredictionResult :=
  ⟨round2 (a.model (features a i)), "kg/hectare",
    confidence (weather_score i.temperature i.rainfall) (soil_score i.soil_ph),
    ⟨weather_impact (weather_score i.temperature i.rainfall),
      soil_impact (soil_score i.soil_ph),
      irrigation_impact i.irrigation_quality⟩⟩

/-- Result of one call of the /api/weather endpoint: HTTP status, success
body, error message, the cache after the call, and whether an upstream
provider call was issued. -/
structure GetWeatherResult where
  status : ℕ
  body : Option WeatherData
  error : Option String
  cache : String → Option WeatherData
  fetched : Bool

/-- Freshness test of the cache branch: the key is present and
now - entry.timestamp < 10 minutes. -/
def freshEntry (now : ℤ) (entry : Option WeatherData) : Bool :=
  match entry with
  | Option.none => false
  | Option.some cd => decide (now - cd.timestamp < 600)

/-- Payloads of a successful provider fetch (current and forecast); the
snapshot timestamp is taken at fetch time. -/
structure RawPayload where
  current : Option CurrentData
  forecastList : Option (List ForecastItem)
deriving DecidableEq

/-- The /api/weather endpoint: key-configured and parameter checks, then
serve a fresh cache entry unchanged without an upstream call, else fetch
(fetch holds the provider answer at this instant, Option.none on transport
or parse failure) and on success store the new snapshot under the same
key, overwriting any previous value. -/
def get_weather (cache : String → Option WeatherData) (now : ℤ)
    (lat lon : Option String) (apiKey : Bool) (fetch : Option RawPayload) :
    GetWeatherResult :=
  if apiKey = false then
    ⟨500, Option.none, Option.some "Weather API key not configured", cache, false⟩
  else if falsyOptStr lat || falsyOptStr lon then
    ⟨400, Option.none, Option.some "Missing coordinates", cache, false⟩
  else
    let key := lat.getD "" ++ "," ++ lon.getD ""
    if freshEntry now (cache key) then
      ⟨200, cache key, Option.none, cache, false⟩
    else
      match fetch with
      | Option.some raw =>
        let w : WeatherData := ⟨raw.current, raw.forecastList, now⟩
        ⟨200, Option.some w, Option.none,
          fun k => if k = key then Option.some w else cache k, true⟩
      | Option.none =>
        ⟨500, Option.none, Option.some "Weather data unavailable", cache, true⟩

/-- Result of one call of the /api/alerts endpoint. -/
structure AlertsResult where
  status : ℕ
  alerts : List Alert
  error : Option String
  fetched : Bool

/-- The /api/alerts endpoint: key-configured and parameter checks, then an
unconditional provider fetch (no cache), and the analyzer applied to the
fetch result, which is None on provider failure. -/
def get_alerts (Tr : String → String → String) (now : ℤ)
    (lat lon : Option String) (language : String) (apiKey : Bool)
    (fetch : Option RawPayload) : AlertsResult :=
  if apiKey = false then
    ⟨500, [], Option.some "Weather API key not configured", false⟩
  else if falsyOptStr lat || falsyOptStr lon then
    ⟨400, [], Option.some "Missing coordinates", false⟩
  else
    ⟨200,
      analyze_weather_alerts Tr now
        (fetch.map fun raw => ⟨raw.current, raw.forecastList, now⟩) language,
      Option.none, true⟩

/-- Outcome of the parameter check of /api/location. -/
inductive LocationOutcome where
  | badRequest : String → LocationOutcome
  | geocode : PyVal → PyVal → LocationOutcome
deriving DecidableEq

/-- The /api/location endpoint up to its external reverse-geocoding call:
the missing-coordinates check is Python-truthiness based. -/
def detect_location (lat lon : PyVal) : LocationOutcome :=
  if truthy lat = false ∨ truthy lon = false then
    LocationOutcome.badRequest "Missing coordinates"
  else LocationOutcome.geocode lat lon

/-- Outcome of the parameter check of /api/crop-suitability. -/
inductive SuitabilityOutcome where
  | badRequest : String → SuitabilityOutcome
  | proceed : PyVal → PyVal → PyVal → SuitabilityOutcome
deriving DecidableEq

/-- The /api/crop-suitability endpoint up to its weather fetch: the
missing-parameters check is Python-truthiness based over crop, latitude
and longitude. -/
def crop_suitability_check (crop lat lon : PyVal) : SuitabilityOutcome :=
  if truthy crop = false ∨ truthy lat = false ∨ truthy lon = false then
    SuitabilityOutcome.badRequest "Missing required parameters"
  else SuitabilityOutcome.proceed crop lat lon

/-- Rain-typed test on an alert record, used to count rain alerts. -/
def isRain (a : Alert) : Bool :=
  match a.type with
  | AlertType.rain => true
  | _ => false

/-- Identity-shaped translation table used for concrete runs. -/
def trId : String → String → String := fun _ key => key

/-- A small concrete artifact (one known region, one known crop) used for
concrete runs. -/
def testArtifact : Artifact :=
  ⟨fun _ => 0, fun _ => 7, fun _ => 9, ["Maharashtra"], ["Wheat"]⟩

/-- A concrete prediction input whose region and crop are unknown to
testArtifact. -/
def testInput : PredictInput :=
  ⟨"Atlantis", "Dragonfruit", 2024, 25, 1000, 13 / 2, 50, 30, 40, 5 / 2, 3⟩

/-- A concrete prediction input with irrigation quality 1. -/
def lowIrrInput : PredictInput :=
  ⟨"Maharashtra", "Wheat", 2024, 25, 1000, 13 / 2, 50, 30, 40, 5 / 2, 1⟩

/-- The empty weather cache. -/
def emptyCache : String → Option WeatherData := fun _ => Option.none

/-- A cache holding one snapshot captured at instant 0 under key 1,2. -/
def cache1 : String → Option WeatherData :=
  fun k => if k = "1,2" then Option.some ⟨Option.none, Option.none, 0⟩ else Option.none

/-- First concrete /api/weather request: empty cache, instant 0, fetch
succeeds; it stores a snapshot with timestamp 0. -/
def run0 : GetWeatherResult :=
  get_weather emptyCache 0 (Option.some "1") (Option.some "2") true
    (Option.some ⟨Option.none, Option.none⟩)

/-- Second concrete request at instant 599: within the freshness window
of the stored snapshot, so a cache hit. -/
def run1 : GetWeatherResult :=
  get_weather run0.cache 599 (Option.some "1") (Option.some "2") true
    (Option.some ⟨Option.none, Option.none⟩)

/-- Third concrete request at instant 1000: only 401 seconds after run1,
but the cached snapshot is 1000 seconds old, so the entry is stale and a
new upstream fetch is issued, here returning a changed payload. -/
def run2 : GetWeatherResult :=
  get_weather run1.cache 1000 (Option.some "1") (Option.some "2") true
    (Option.some ⟨Option.some ⟨Option.none⟩, Option.none⟩)

/-- Concrete weather payload for the rain-scan counterexample: the first
forecast slot carries rain 3 hours out, the second carries rain 1 hour
out. -/
def cex4Data : WeatherData :=
  ⟨Option.some ⟨Option.none⟩, Option.some [⟨10800, true⟩, ⟨3600, true⟩], 0⟩

/-! Shared lemmas. -/

/-- The rain scan yields a result exactly when some scanned slot carries
rain data and lies at most 2 hours out. -/
theorem rain_scan_isSome_iff (now : ℤ) (l : List ForecastItem) :
    (rain_scan now l).isSome = true ↔ ∃ it ∈ l, it.hasRain = true ∧ hoursUntil now it ≤ 2 := by
  induction l with
  | nil => simp [rain_scan]
  | cons item rest ih =>
    by_cases hr : item.hasRain = true
    · by_cases hh : hoursUntil now item ≤ 2
      · simp [rain_scan, hr, hh]
      · simp [rain_scan, hr, hh, ih]
    · simp [rain_scan, hr, ih]

/-- Without a forecast list the analyzer emits no rain alert. -/
theorem analyze_countP_isRain_none (Tr : String → String → String) (now : ℤ)
    (language : String) (cur : CurrentData) (ts : ℤ) :
    (analyze_weather_alerts Tr now
        (Option.some ⟨Option.some cur, Option.none, ts⟩) language).countP isRain = 0 := by
  by_cases h1 : getTemp cur > 35 <;>
    by_cases h2 : getHumidity cur < 30 ∧ getTemp cur > 30 <;>
      simp [analyze_weather_alerts, h1, h2, isRain, heatAlert, droughtAlert,
        List.countP_cons, List.countP_nil]

/-- With a forecast list the analyzer emits one rain alert exactly when
the rain scan over the first 8 slots yields a result. -/
theorem analyze_countP_isRain_some (Tr : String → String → String) (now : ℤ)
    (language : String) (cur : CurrentData) (items : List ForecastItem) (ts : ℤ) :
    (analyze_weather_alerts Tr now
        (Option.some ⟨Option.some cur, Option.some items, ts⟩) language).countP isRain
      = if (rain_scan now (items.take 8)).isSome = true then 1 else 0 := by
  by_cases h1 : getTemp cur > 35 <;>
    by_cases h2 : getHumidity cur < 30 ∧ getTemp cur > 30 <;>
      cases hsc : rain_scan now (items.take 8) <;>
        simp [analyze_weather_alerts, h1, h2, hsc, isRain, heatAlert, droughtAlert, rainAlert,
          List.countP_cons, List.countP_nil]

/-- On valid parameters with a fresh cache entry, /api/weather serves the
entry unchanged. -/
theorem gw_hit (cache : String → Option WeatherData) (now : ℤ) (a b : String)
    (ha : ¬a = "") (hb : ¬b = "") (fetch : Option RawPayload)
    (hfresh : freshEntry now (cache (a ++ "," ++ b)) = true) :
    get_weather cache now (Option.some a) (Option.some b) true fetch
      = ⟨200, cache (a ++ "," ++ b), Option.none, cache, false⟩ := by
  simp [get_weather, falsyOptStr, ha, hb, hfresh]

/-- On valid parameters with no fresh entry and a successful fetch,
/api/weather stores and returns the new snapshot. -/
theorem gw_fetch_ok (cache : String → Option WeatherData) (now : ℤ) (a b : String)
    (ha : ¬a = "") (hb : ¬b = "") (raw : RawPayload)
    (hfresh : freshEntry now (cache (a ++ "," ++ b)) = false) :
    get_weather cache now (Option.some a) (Option.some b) true (Option.some raw)
      = ⟨200, Option.some ⟨raw.current, raw.forecastList, now⟩, Option.none,
          fun k => if k = a ++ "," ++ b then Option.some ⟨raw.current, raw.forecastList, now⟩
                   else cache k, true⟩ := by
  simp [get_weather, falsyOptStr, ha, hb, hfresh]

/-- On valid parameters with no fresh entry and a failed fetch,
/api/weather answers 500 and leaves the cache unchanged. -/
theorem gw_fetch_fail (cache : String → Option WeatherData) (now : ℤ) (a b : String)
    (ha : ¬a = "") (hb : ¬b = "")
    (hfresh : freshEntry now (cache (a ++ "," ++ b)) = false) :
    get_weather cache now (Option.some a) (Option.some b) true Option.none
      = ⟨500, Option.none, Option.some "Weather data unavailable", cache, true⟩ := by
  simp [get_weather, falsyOptStr, ha, hb, hfresh]

/-! Claim theorems. -/

/-- C2: with the "current" payload present, the analyzer appends the
heat-stress alert (severity high) exactly when temperature exceeds 35,
and the drought alert (severity high) exactly when humidity is below 30
and temperature exceeds 30; missing temperature reads as 0 and missing
humidity as 100; a snapshot with temperature 36 and humidity 50 yields
exactly one alert, the heat-stress one, and a snapshot with temperature
31 and humidity 20 exactly one alert, the drought one. -/
theorem c2_alert_analyzer_thresholds (Tr : String → String → String)
    (now : ℤ) (language : String) :
    (∀ ts, analyze_weather_alerts Tr now
        (Option.some ⟨Option.some ⟨Option.some ⟨Option.some 36, Option.some 50⟩⟩, Option.none, ts⟩)
        language = [heatAlert Tr language])
  ∧ (heatAlert Tr language).type = AlertType.heat_stress
  ∧ (heatAlert Tr language).severity = Severity.high
  ∧ (∀ ts, analyze_weather_alerts Tr now
        (Option.some ⟨Option.some ⟨Option.some ⟨Option.some 31, Option.some 20⟩⟩, Option.none, ts⟩)
        language = [droughtAlert Tr language])
  ∧ (droughtAlert Tr language).type = AlertType.drought
  ∧ (droughtAlert Tr language).severity = Severity.high
  ∧ (∀ cur fl ts,
      ((∃ a ∈ analyze_weather_alerts Tr now (Option.some ⟨Option.some cur, fl, ts⟩) language,
          a.type = AlertType.heat_stress) ↔ getTemp cur > 35))
  ∧ (∀ cur fl ts,
      ((∃ a ∈ analyze_weather_alerts Tr now (Option.some ⟨Option.some cur, fl, ts⟩) language,
          a.type = AlertType.drought) ↔ getHumidity cur < 30 ∧ getTemp cur > 30))
  ∧ (∀ hum, getTemp ⟨Option.some ⟨Option.none, hum⟩⟩ = 0)
  ∧ (∀ t, getHumidity ⟨Option.some ⟨t, Option.none⟩⟩ = 100) := by
  refine ⟨?_, rfl, rfl, ?_, rfl, rfl, ?_, ?_, fun _ => rfl, fun _ => rfl⟩
  · intro ts
    norm_num [analyze_weather_alerts, getTemp, getHumidity]
  · intro ts
    norm_num [analyze_weather_alerts, getTemp, getHumidity]
  · intro cur fl ts
    by_cases h1 : getTemp cur > 35 <;>
      by_cases h2 : getHumidity cur < 30 ∧ getTemp cur > 30 <;>
        cases fl with
        | none => simp [analyze_weather_alerts, h1, h2, heatAlert, droughtAlert]
        | some items =>
          cases hsc : rain_scan now (items.take 8) <;>
            simp [analyze_weather_alerts, h1, h2, hsc, heatAlert, droughtAlert, rainAlert]
  · intro cur fl ts
    by_cases h1 : getTemp cur > 35 <;>
      by_cases h2 : getHumidity cur < 30 ∧ getTemp cur > 30 <;>
        cases fl with
        | none => simp [analyze_weather_alerts, h1, h2, heatAlert, droughtAlert]
        | some items =>
          cases hsc : rain_scan now (items.take 8) <;>
            simp [analyze_weather_alerts, h1, h2, hsc, heatAlert, droughtAlert, rainAlert]

/-- C3: the suitability scorer returns 50 when the weather payload is
absent, when the model-loaded flag is down, and when field extraction
fails at any level; otherwise it returns the mean of the temperature,
humidity and soil-pH sub-scores clamped to the 0 to 100 range (soil pH
defaulting to 6.5); temperature 25, humidity 60 and pH 6.5 give exactly
100, and the result always lies in the 0 to 100 range. -/
theorem c3_suitability_score (crop : String) :
    (∀ ml ph, calculate_crop_suitability crop ml Option.none ph = 50)
  ∧ (∀ wd ph, calculate_crop_suitability crop false wd ph = 50)
  ∧ (∀ fl ts ml ph,
      calculate_crop_suitability crop ml (Option.some ⟨Option.none, fl, ts⟩) ph = 50)
  ∧ (∀ fl ts ml ph,
      calculate_crop_suitability crop ml (Option.some ⟨Option.some ⟨Option.none⟩, fl, ts⟩) ph = 50)
  ∧ (∀ hum fl ts ml ph, calculate_crop_suitability crop ml
        (Option.some ⟨Option.some ⟨Option.some ⟨Option.none, hum⟩⟩, fl, ts⟩) ph = 50)
  ∧ (∀ t fl ts ml ph, calculate_crop_suitability crop ml
        (Option.some ⟨Option.some ⟨Option.some ⟨Option.some t, Option.none⟩⟩, fl, ts⟩) ph = 50)
  ∧ (∀ temp hum fl ts ph, calculate_crop_suitability crop true
        (Option.some ⟨Option.some ⟨Option.some ⟨Option.some temp, Option.some hum⟩⟩, fl, ts⟩) ph
      = min 100 (max 0 ((temp_score temp + humidity_score hum
          + ph_score (ph.getD (13 / 2))) / 3)))
  ∧ (∀ fl ts, calculate_crop_suitability crop true
        (Option.some ⟨Option.some ⟨Option.some ⟨Option.some 25, Option.some 60⟩⟩, fl, ts⟩)
        (Option.some (13 / 2)) = 100)
  ∧ (∀ ml wd ph, 0 ≤ calculate_crop_suitability crop ml wd ph
      ∧ calculate_crop_suitability crop ml wd ph ≤ 100) := by
  refine ⟨fun ml ph => rfl, ?_, ?_, ?_, ?_, ?_, fun temp hum fl ts ph => rfl, ?_, ?_⟩
  · intro wd ph
    cases wd <;> simp [calculate_crop_suitability]
  · intro fl ts ml ph
    cases ml <;> simp [calculate_crop_suitability]
  · intro fl ts ml ph
    cases ml <;> simp [calculate_crop_suitability]
  · intro hum fl ts ml ph
    cases ml <;> simp [calculate_crop_suitability]
  · intro t fl ts ml ph
    cases ml <;> simp [calculate_crop_suitability]
  · intro fl ts
    norm_num [calculate_crop_suitability, temp_score, humidity_score, ph_score]
  · intro ml wd ph
    constructor <;>
    · unfold calculate_crop_suitability
      split <;> (try split) <;> (try split) <;> (try split) <;> norm_num

/-- C5: the confidence label of the yield predictor is High exactly when
both the weather score exceeds 70 and the soil score exceeds 70; when
that fails it is Medium whenever the weather score exceeds 50 regardless
of the soil score, and Low otherwise; scores 71 and 71 give High while
71 and 69 give Medium. -/
theorem c5_confidence_gating (ws ss : ℚ) :
    (confidence ws ss = "High" ↔ ws > 70 ∧ ss > 70)
  ∧ (¬(ws > 70 ∧ ss > 70) → ws > 50 → confidence ws ss = "Medium")
  ∧ (¬(ws > 70 ∧ ss > 70) → ¬ws > 50 → confidence ws ss = "Low")
  ∧ confidence 71 71 = "High"
  ∧ confidence 71 69 = "Medium"
  ∧ (∀ a i, (predict_yield a i).resultConfidence
      = confidence (weather_score i.temperature i.rainfall) (soil_score i.soil_ph)) := by
  refine ⟨?_, ?_, ?_, by decide, by decide, fun a i => rfl⟩
  · by_cases h1 : ws > 70 ∧ ss > 70
    · simp [confidence, h1]
    · by_cases h2 : ws > 50 <;> simp [confidence, h1, h2]
  · intro h1 h2
    simp [confidence, h1, h2]
  · intro h1 h2
    simp [confidence, h1, h2]

/-- C5 witness: scores 71 and 69 land in the Medium branch and scores 40
and 90 in the Low branch. -/
theorem c5_confidence_gating_witness :
    confidence 71 69 = "Medium" ∧ confidence 40 90 = "Low" := by
  have h := c5_confidence_gating 71 69
  have h2 := c5_confidence_gating 40 90
  exact ⟨h.2.1 (by norm_num) (by norm_num), h2.2.2.1 (by norm_num) (by norm_num)⟩

/-- C6 counterexample: the auxiliary scores of predict_yield are not the
paragraph-4.3 formulas; at soil pH 5.5 the predictor soil score is 90
while the suitability pH score is 80, and at temperature 25 with
rainfall 0 the predictor weather score is 50 while the suitability
temperature score is 100. -/
theorem c6_counterexample :
    soil_score (11 / 2) = 90 ∧ ph_score (11 / 2) = 80
  ∧ soil_score (11 / 2) ≠ ph_score (11 / 2)
  ∧ weather_score 25 0 = 50 ∧ temp_score 25 = 100
  ∧ weather_score 25 0 ≠ temp_score 25 := by
  norm_num [soil_score, ph_score, weather_score, temp_score]

/-- C6 amended: the predictor weather score is the suitability
temperature score further penalized by a twentieth of the rainfall
distance from 1000 and clamped above at 100, so the two agree exactly at
rainfall 1000; the predictor soil score uses coefficient 10 instead of
the suitability coefficient 20 and therefore dominates the suitability
pH score; the irrigation score is irrigation quality times 20. -/
theorem c6_scores_amended :
    (∀ t : ℚ, weather_score t 1000 = temp_score t)
  ∧ (∀ p : ℚ, ph_score p ≤ soil_score p)
  ∧ (∀ q : ℤ, irrigation_score q = (q : ℚ) * 20) := by
  refine ⟨?_, ?_, fun q => rfl⟩
  · intro t
    have h2 : (0 : ℚ) ≤ |t - 25| * 2 := by positivity
    unfold weather_score temp_score
    rw [show |(1000 : ℚ) - 1000| * (1 / 20) = 0 by norm_num, sub_zero]
    exact min_eq_right (max_le (by norm_num) (by linarith))
  · intro p
    have hd : (0 : ℚ) ≤ |p - 13 / 2| := abs_nonneg _
    unfold ph_score soil_score
    refine le_min (max_le (by norm_num) (by linarith)) ?_
    exact max_le_max le_rfl (by linarith)

/-- C7: the feature row passed to the regression model always has
length 11 and the fixed order region code, crop code, year, temperature,
rainfall, soil pH, nitrogen, phosphorus, potassium, organic matter,
irrigation quality; a region outside the known-region list is encoded as
index 0 without failing, and likewise for an unknown crop; the predicted
yield is the rounded output of the model on exactly this row. -/
theorem c7_feature_vector (a : Artifact) (i : PredictInput) :
    (features a i).length = 11
  ∧ features a i = [((encode_region a i.region : ℤ) : ℚ), ((encode_crop a i.crop : ℤ) : ℚ),
      i.year, i.temperature, i.rainfall, i.soil_ph, i.nitrogen, i.phosphorus, i.potassium,
      i.organic_matter, ((i.irrigation_quality : ℤ) : ℚ)]
  ∧ (i.region ∉ a.regions → (features a i)[0]? = Option.some 0)
  ∧ (i.crop ∉ a.crops → (features a i)[1]? = Option.some 0)
  ∧ (predict_yield a i).predicted_yield = round2 (a.model (features a i)) := by
  refine ⟨rfl, rfl, ?_, ?_, rfl⟩
  · intro h
    simp [features, encode_region, h]
  · intro h
    simp [features, encode_crop, h]

/-- C7 witness: a concrete artifact knowing only Maharashtra and Wheat,
with a request naming an unknown region and crop, yields index 0 in both
encoded slots of an 11-entry feature row. -/
theorem c7_feature_vector_witness :
    (features testArtifact testInput).length = 11
  ∧ (features testArtifact testInput)[0]? = Option.some 0
  ∧ (features testArtifact testInput)[1]? = Option.some 0 := by
  have h := c7_feature_vector testArtifact testInput
  exact ⟨h.1, h.2.2.1 (by decide), h.2.2.2.1 (by decide)⟩

/-- C8 counterexample: at irrigation quality 1 the irrigation impact
label of the prediction result is Adequate, which is not a member of the
claimed enumeration Poor, Moderate, Good, Excellent. -/
theorem c8_counterexample :
    (predict_yield testArtifact lowIrrInput).factors.irrigationImpact = "Adequate"
  ∧ "Adequate" ∉ ["Poor", "Moderate", "Good", "Excellent"] := by
  constructor
  · norm_num [predict_yield, lowIrrInput, irrigation_impact]
  · decide

/-- C8 amended: for every prediction, the weather and soil impact labels
lie in the enumeration Poor, Moderate, Good, the irrigation impact label
in the enumeration Adequate, Good, Excellent, and the confidence in the
enumeration Low, Medium, High. -/
theorem c8_labels_amended (a : Artifact) (i : PredictInput) :
    (predict_yield a i).factors.weatherImpact ∈ ["Poor", "Moderate", "Good"]
  ∧ (predict_yield a i).factors.soilImpact ∈ ["Poor", "Moderate", "Good"]
  ∧ (predict_yield a i).factors.irrigationImpact ∈ ["Adequate", "Good", "Excellent"]
  ∧ (predict_yield a i).resultConfidence ∈ ["Low", "Medium", "High"] := by
  refine ⟨?_, ?_, ?_, ?_⟩ <;>
  · simp only [predict_yield, weather_impact, soil_impact, irrigation_impact, confidence]
    split_ifs <;> simp

/-- C10: both the /api/location and the /api/crop-suitability parameter
checks are Python-truthiness based, so a latitude or longitude supplied
as the number 0 or as the empty string is answered 400 exactly as if the
coordinate were absent, and such a request is never processed further. -/
theorem c10_falsy_zero_coordinates :
    (∀ lon, detect_location (PyVal.num 0) lon = LocationOutcome.badRequest "Missing coordinates")
  ∧ (∀ lon, detect_location (PyVal.str "") lon = LocationOutcome.badRequest "Missing coordinates")
  ∧ (∀ lat, detect_location lat (PyVal.num 0) = LocationOutcome.badRequest "Missing coordinates")
  ∧ (∀ lon, detect_location (PyVal.num 0) lon = detect_location PyVal.pynone lon)
  ∧ (∀ lon r s, detect_location (PyVal.num 0) lon ≠ LocationOutcome.geocode r s)
  ∧ (∀ crop lon, crop_suitability_check crop (PyVal.num 0) lon
      = SuitabilityOutcome.badRequest "Missing required parameters")
  ∧ (∀ crop lon, crop_suitability_check crop (PyVal.str "") lon
      = SuitabilityOutcome.badRequest "Missing required parameters")
  ∧ (∀ crop lat, crop_suitability_check crop lat (PyVal.num 0)
      = SuitabilityOutcome.badRequest "Missing required parameters")
  ∧ (∀ crop lon c la lo, crop_suitability_check crop (PyVal.num 0) lon
      ≠ SuitabilityOutcome.proceed c la lo) := by
  refine ⟨?_, ?_, ?_, ?_, ?_, ?_, ?_, ?_, ?_⟩ <;>
    intros <;> simp [detect_location, crop_suitability_check, truthy]

/-- C4 counterexample: on a forecast whose first slot carries rain 3
hours out (more than 2) and whose second slot carries rain 1 hour out,
the analyzer emits a rain alert, although the claim predicts zero rain
alerts whenever the first rain-bearing slot is more than 2 hours out. -/
theorem c4_counterexample :
    cex4Data.forecastList = Option.some [⟨10800, true⟩, ⟨3600, true⟩]
  ∧ (⟨10800, true⟩ : ForecastItem).hasRain = true
  ∧ 2 < hoursUntil 0 ⟨10800, true⟩
  ∧ (analyze_weather_alerts trId 0 (Option.some cex4Data) "en").countP isRain = 1 := by
  refine ⟨rfl, rfl, by norm_num [hoursUntil], ?_⟩
  norm_num [analyze_weather_alerts, cex4Data, getTemp, getHumidity, rain_scan, hoursUntil, pyInt,
    List.countP_cons, List.countP_nil, isRain, rainAlert]

/-- C4 amended: among the first 8 forecast slots, the rain alert is
emitted for the first slot that both carries rain data and lies at most
2 hours out; rain-bearing slots more than 2 hours out are skipped and
scanning continues; at most one rain alert is ever emitted; a slot with
rain 1.5 hours out yields exactly one rain alert with hour count 1, and
zero rain alerts result when every rain-bearing slot among the first 8
is more than 2 hours out. -/
theorem c4_rain_rule_amended (Tr : String → String → String) (now : ℤ) (language : String) :
    (∀ cur fl ts, (analyze_weather_alerts Tr now
        (Option.some ⟨Option.some cur, fl, ts⟩) language).countP isRain ≤ 1)
  ∧ (∀ cur items ts,
      ((analyze_weather_alerts Tr now
          (Option.some ⟨Option.some cur, Option.some items, ts⟩) language).countP isRain = 1
        ↔ ∃ it ∈ items.take 8, it.hasRain = true ∧ hoursUntil now it ≤ 2))
  ∧ (∀ ts, analyze_weather_alerts Tr now
        (Option.some ⟨Option.some ⟨Option.none⟩, Option.some [⟨now + 5400, true⟩], ts⟩) language
      = [rainAlert Tr language 1])
  ∧ (∀ cur items ts,
      (∀ it ∈ items.take 8, it.hasRain = true → 2 < hoursUntil now it) →
      (analyze_weather_alerts Tr now
          (Option.some ⟨Option.some cur, Option.some items, ts⟩) language).countP isRain = 0) := by
  refine ⟨?_, ?_, ?_, ?_⟩
  · intro cur fl ts
    cases fl with
    | none =>
      rw [analyze_countP_isRain_none]
      norm_num
    | some items =>
      rw [analyze_countP_isRain_some]
      split_ifs <;> norm_num
  · intro cur items ts
    rw [analyze_countP_isRain_some, ← rain_scan_isSome_iff]
    split_ifs with h <;> simp [h]
  · intro ts
    have h54 : (now + 5400 - now : ℤ) = 5400 := by omega
    have hdt : hoursUntil now ⟨now + 5400, true⟩ = 3 / 2 := by
      show ((now + 5400 - now : ℤ) : ℚ) / 3600 = 3 / 2
      rw [h54]; norm_num
    have hpy : pyInt (3 / 2) = 1 := by norm_num [pyInt]
    norm_num [analyze_weather_alerts, getTemp, getHumidity, rain_scan, hdt, hpy]
  · intro cur items ts h
    rw [analyze_countP_isRain_some]
    have hnone : ¬(rain_scan now (items.take 8)).isSome = true := by
      rw [rain_scan_isSome_iff]
      rintro ⟨it, hmem, hrain, hle⟩
      exact absurd hle (not_le.mpr (h it hmem hrain))
    simp [hnone]

/-- C4 amended witness: a single forecast slot with rain 3 hours out
produces zero rain alerts. -/
theorem c4_rain_rule_amended_witness :
    (analyze_weather_alerts trId 0
        (Option.some ⟨Option.some ⟨Option.none⟩, Option.some [⟨10800, true⟩], 0⟩) "en").countP
      isRain = 0 :=
  (c4_rain_rule_amended trId 0 "en").2.2.2 ⟨Option.none⟩ [⟨10800, true⟩] 0 (by
    intro it hm hr
    rw [show List.take 8 [(⟨10800, true⟩ : ForecastItem)] = [⟨10800, true⟩] from rfl,
      List.mem_singleton] at hm
    subst hm
    norm_num [hoursUntil])

/-- C9 counterexample: on a provider failure with valid parameters and a
configured key, /api/alerts answers 200 with an empty alert list and no
error body, not the claimed 500 with an error. -/
theorem c9_counterexample :
    (get_alerts trId 0 (Option.some "18.52") (Option.some "73.86") "en" true Option.none).status
      = 200
  ∧ (get_alerts trId 0 (Option.some "18.52") (Option.some "73.86") "en" true Option.none).status
      ≠ 500
  ∧ (get_alerts trId 0 (Option.some "18.52") (Option.some "73.86") "en" true Option.none).error
      = Option.none
  ∧ (get_alerts trId 0 (Option.some "18.52") (Option.some "73.86") "en" true Option.none).alerts
      = [] := by
  decide

/-- C9 amended: on provider failure /api/weather answers 500 with an
error body whenever no fresh cache entry covers the coordinates, while
/api/alerts always answers 200 with an empty alert list and no error. -/
theorem c9_provider_failure_amended (Tr : String → String → String) (now : ℤ)
    (a b : String) (ha : ¬a = "") (hb : ¬b = "") (language : String)
    (cache : String → Option WeatherData) :
    (freshEntry now (cache (a ++ "," ++ b)) = false →
        (get_weather cache now (Option.some a) (Option.some b) true Option.none).status = 500
      ∧ (get_weather cache now (Option.some a) (Option.some b) true Option.none).error
          = Option.some "Weather data unavailable")
  ∧ (get_alerts Tr now (Option.some a) (Option.some b) language true Option.none).status = 200
  ∧ (get_alerts Tr now (Option.some a) (Option.some b) language true Option.none).alerts = []
  ∧ (get_alerts Tr now (Option.some a) (Option.some b) language true Option.none).error
      = Option.none := by
  refine ⟨?_, ?_, ?_, ?_⟩
  · intro hfresh
    rw [gw_fetch_fail cache now a b ha hb hfresh]
    exact ⟨rfl, rfl⟩
  all_goals simp [get_alerts, falsyOptStr, ha, hb, analyze_weather_alerts]

/-- C9 amended witness: concrete failed-fetch requests against an empty
cache show /api/weather answering 500 and /api/alerts answering 200 with
no alerts. -/
theorem c9_provider_failure_amended_witness :
    (get_weather emptyCache 0 (Option.some "1") (Option.some "2") true Option.none).status = 500
  ∧ (get_alerts trId 0 (Option.some "1") (Option.some "2") "en" true Option.none).status = 200
  ∧ (get_alerts trId 0 (Option.some "1") (Option.some "2") "en" true Option.none).alerts = [] := by
  have h := c9_provider_failure_amended trId 0 "1" "2" (by decide) (by decide) "en" emptyCache
  exact ⟨(h.1 rfl).1, h.2.1, h.2.2.1⟩

/-- C1 counterexample: starting from an empty cache, a request at
instant 0 populates the entry; a request at instant 599 is a cache hit;
a request at instant 1000 — only 401 seconds after the second request,
so the two are within 10 minutes of each other — finds the entry stale,
issues an upstream call and returns a different payload, refuting the
claim that any two requests within 10 minutes return identical payloads
with no upstream call on the second. -/
theorem c1_counterexample :
    ((1000 : ℤ) - 599 < 600)
  ∧ run1.status = 200 ∧ run1.fetched = false
  ∧ run2.status = 200 ∧ run2.fetched = true
  ∧ run2.body ≠ run1.body := by
  decide

/-- C1 amended: a fresh cache entry (strictly younger than 600 seconds)
is served unchanged with no upstream call and no cache write; with no
fresh entry an upstream call is issued and a successful fetch stores the
new snapshot under the coordinate key, overwriting any previous value;
and after a request that itself fetched and stored successfully, any
request for the same raw coordinate strings within 10 minutes of that
fetch returns the identical payload and issues no upstream call. -/
theorem c1_cache_amended (cache : String → Option WeatherData) (now : ℤ) (a b : String)
    (ha : ¬a = "") (hb : ¬b = "") (fetch : Option RawPayload) :
    (∀ cd, cache (a ++ "," ++ b) = Option.some cd → now - cd.timestamp < 600 →
        get_weather cache now (Option.some a) (Option.some b) true fetch
          = ⟨200, Option.some cd, Option.none, cache, false⟩)
  ∧ (freshEntry now (cache (a ++ "," ++ b)) = false →
        (get_weather cache now (Option.some a) (Option.some b) true fetch).fetched = true
      ∧ ∀ raw, fetch = Option.some raw →
          (get_weather cache now (Option.some a) (Option.some b) true fetch).body
            = Option.some ⟨raw.current, raw.forecastList, now⟩
        ∧ (get_weather cache now (Option.some a) (Option.some b) true fetch).cache (a ++ "," ++ b)
            = Option.some ⟨raw.current, raw.forecastList, now⟩)
  ∧ (∀ raw t2 fetch2, fetch = Option.some raw →
        freshEntry now (cache (a ++ "," ++ b)) = false →
        now ≤ t2 → t2 - now < 600 →
        (get_weather (get_weather cache now (Option.some a) (Option.some b) true fetch).cache t2
            (Option.some a) (Option.some b) true fetch2).body
          = (get_weather cache now (Option.some a) (Option.some b) true fetch).body
      ∧ (get_weather (get_weather cache now (Option.some a) (Option.some b) true fetch).cache t2
            (Option.some a) (Option.some b) true fetch2).fetched = false) := by
  refine ⟨?_, ?_, ?_⟩
  · intro cd hcd hlt
    have hfresh : freshEntry now (cache (a ++ "," ++ b)) = true := by
      simp [freshEntry, hcd, hlt]
    rw [gw_hit cache now a b ha hb fetch hfresh, hcd]
  · intro hfresh
    cases fetch with
    | none =>
      rw [gw_fetch_fail cache now a b ha hb hfresh]
      exact ⟨rfl, fun raw h => by simp at h⟩
    | some raw =>
      rw [gw_fetch_ok cache now a b ha hb raw hfresh]
      refine ⟨rfl, ?_⟩
      rintro raw2 ⟨rfl⟩
      exact ⟨rfl, by simp⟩
  · rintro raw t2 fetch2 rfl hfresh h1 h2
    rw [gw_fetch_ok cache now a b ha hb raw hfresh]
    have hfresh2 : freshEntry t2
        ((fun k => if k = a ++ "," ++ b
            then Option.some (⟨raw.current, raw.forecastList, now⟩ : WeatherData)
            else cache k) (a ++ "," ++ b)) = true := by
      simp [freshEntry]
      omega
    rw [gw_hit _ t2 a b ha hb fetch2 hfresh2]
    simp

/-- C1 amended witness: a concrete fresh hit against a one-entry cache,
and a concrete fetch-store at instant 0 whose snapshot is served without
an upstream call at instant 599. -/
theorem c1_cache_amended_witness :
    get_weather cache1 100 (Option.some "1") (Option.some "2") true Option.none
      = ⟨200, Option.some ⟨Option.none, Option.none, 0⟩, Option.none, cache1, false⟩
  ∧ (get_weather emptyCache 0 (Option.some "1") (Option.some "2") true
        (Option.some ⟨Option.none, Option.none⟩)).fetched = true
  ∧ (get_weather (get_weather emptyCache 0 (Option.some "1") (Option.some "2") true
        (Option.some ⟨Option.none, Option.none⟩)).cache 599 (Option.some "1") (Option.some "2")
        true (Option.some ⟨Option.none, Option.none⟩)).fetched = false := by
  refine ⟨?_, ?_, ?_⟩
  · exact (c1_cache_amended cache1 100 "1" "2" (by decide) (by decide) Option.none).1
      ⟨Option.none, Option.none, 0⟩ (by decide) (by decide)
  · exact ((c1_cache_amended emptyCache 0 "1" "2" (by decide) (by decide)
      (Option.some ⟨Option.none, Option.none⟩)).2.1 (by decide)).1
  · exact ((c1_cache_amended emptyCache 0 "1" "2" (by decide) (by decide)
      (Option.some ⟨Option.none, Option.none⟩)).2.2 ⟨Option.none, Option.none⟩ 599
      (Option.some ⟨Option.none, Option.none⟩) rfl (by decide) (by decide) (by decide)).2

end AgriPredict
